import Mathlib

/-!
# Shallow embedding of the cert-checker tool (`src/main.go`)

This file models the core logic of the SSL-certificate expiry checker:
the per-site probe result (`checkCertificate`), the batch scanner
(`checkAllSites`), the exit-code decision in `main`, the Discord webhook
dispatcher (`sendDiscordNotification`), and the HTML report generator
(`generateHTMLReport`).

Modelling conventions:
* Go `time.Time` instants and `time.Duration` values are modelled as `Int`
  nanosecond counts (Go durations are `int64` nanoseconds).  The Go
  expression `int(cert.NotAfter.Sub(now).Hours() / 24)` divides the
  nanosecond delta by the exact constants 3.6e12 and 24 in `float64` and
  then converts with Go's `int(...)`, which truncates toward zero.  It is
  modelled as exact rational arithmetic followed by truncation toward
  zero, i.e. `Int.tdiv` by the nanoseconds of one day.
* Network and system effects are inputs: the TLS probe outcome for a site
  (`ProbeOutcome`), the `json.Marshal` outcome and the HTTP POST outcome
  of the webhook dispatcher, and the timestamp-rendering of `time.Format`
  are passed in as explicit parameters.
* Go strings are Lean `String`s; struct fields Go leaves at their zero
  value are written out explicitly as `""` / `0`.
-/

namespace CertChecker

/-- `Site` from `main.go` (config entity): url, port, display name. -/
structure Site where
  url : String
  port : Int
  name : String
deriving DecidableEq, Repr

/-- The fields of an X.509 leaf certificate that `checkCertificate` reads:
issuer organization list, issuer common name, subject common name, and the
validity bounds (instants, in nanoseconds). -/
structure Certificate where
  issuerOrganization : List String
  issuerCommonName : String
  subjectCommonName : String
  notBefore : Int
  notAfter : Int
deriving DecidableEq, Repr

/-- Outcome of the TLS probe of one site (the effectful part of
`checkCertificate`): either `tls.DialWithDialer` fails with an error
message, or the handshake succeeds and yields the peer certificate chain
(possibly empty). -/
inductive ProbeOutcome where
  | dialError (msg : String)
  | connected (certs : List Certificate)
deriving DecidableEq, Repr

/-- `CertInfo` from `main.go`: one probe result.  `status` is a Go string
("OK", "WARNING", "CRITICAL" or "ERROR"); instants are nanosecond counts. -/
structure CertInfo where
  siteName : String
  url : String
  port : Int
  issuer : String
  subject : String
  notBefore : Int
  notAfter : Int
  daysRemaining : Int
  status : String
  errorMessage : String
deriving DecidableEq, Repr

/-- The `alert` section of `Config`: the two day thresholds. -/
structure AlertConfig where
  warningDays : Int
  criticalDays : Int
deriving DecidableEq, Repr

/-- The `discord` section of `Config`. -/
structure DiscordConfig where
  enabled : Bool
  webhookURL : String
  notifyOn : List String
deriving DecidableEq, Repr

/-- The parts of `Config` the modelled functions read (the email and
logging sections feed only the unmodelled SMTP/log sinks). -/
structure Config where
  sites : List Site
  alert : AlertConfig
  discord : DiscordConfig
deriving DecidableEq, Repr

/-- Nanoseconds in 24 hours. -/
def nsPerDay : Int := 86400 * 1000000000

/-- Line 239: `daysRemaining := int(cert.NotAfter.Sub(now).Hours() / 24)`.
The exact value of `Hours() / 24` is `(notAfter - now) / nsPerDay` as a
rational; Go's `int(...)` float-to-int conversion truncates toward zero,
which on that rational is `Int.tdiv` of the nanosecond delta by `nsPerDay`. -/
def daysRemainingOf (now notAfter : Int) : Int :=
  Int.tdiv (notAfter - now) nsPerDay

/-- Lines 241-251: the status decision chain of `checkCertificate`. -/
def statusOf (alert : AlertConfig) (daysRemaining : Int) : String :=
  if daysRemaining < 0 then "CRITICAL"
  else if daysRemaining ≤ alert.criticalDays then "CRITICAL"
  else if daysRemaining ≤ alert.warningDays then "WARNING"
  else "OK"

/-- Lines 253-261: issuer string — joined organization names, else the
issuer common name, else the literal "Unknown". -/
def issuerStringOf (cert : Certificate) : String :=
  let issuer : List String :=
    if cert.issuerOrganization.length = 0 then [cert.issuerCommonName]
    else cert.issuerOrganization
  let issuerStr := String.intercalate ", " issuer
  if issuerStr = "" then "Unknown" else issuerStr

/-- Lines 191-274: `checkCertificate`, with the TLS dial outcome passed in
as `probe` and the current instant as `now`. -/
def checkCertificate (config : Config) (site : Site) (probe : ProbeOutcome)
    (now : Int) : CertInfo :=
  let port : Int := if site.port = 0 then 443 else site.port
  let name : String := if site.name = "" then site.url else site.name
  match probe with
  | .dialError msg =>
    { siteName := name, url := site.url, port := port,
      issuer := "", subject := "", notBefore := 0, notAfter := 0,
      daysRemaining := 0, status := "ERROR",
      errorMessage := "証明書の取得に失敗: " ++ msg }
  | .connected certs =>
    match certs with
    | [] =>
      { siteName := name, url := site.url, port := port,
        issuer := "", subject := "", notBefore := 0, notAfter := 0,
        daysRemaining := 0, status := "ERROR",
        errorMessage := "証明書が見つかりません" }
    | cert :: _ =>
      let daysRemaining := daysRemainingOf now cert.notAfter
      let status := statusOf config.alert daysRemaining
      { siteName := name, url := site.url, port := port,
        issuer := issuerStringOf cert, subject := cert.subjectCommonName,
        notBefore := cert.notBefore, notAfter := cert.notAfter,
        daysRemaining := daysRemaining, status := status,
        errorMessage := "" }

/-- Lines 177-188: `checkAllSites` loops over `config.Sites` in order and
appends one `checkCertificate` result per site.  `probe` supplies the TLS
outcome for each site. -/
def checkAllSites (config : Config) (probe : Site → ProbeOutcome)
    (now : Int) : List CertInfo :=
  config.sites.map (fun site => checkCertificate config site (probe site) now)

/-- Lines 131-137 of `main`: a result has an issue when its status is
WARNING, CRITICAL or ERROR. -/
def hasIssues (results : List CertInfo) : Bool :=
  results.any (fun r =>
    r.status == "WARNING" || r.status == "CRITICAL" || r.status == "ERROR")

/-- Lines 138-140 of `main`: `os.Exit(1)` when some result has an issue,
otherwise the process ends normally with exit code 0. -/
def exitCode (results : List CertInfo) : Nat :=
  if hasIssues results then 1 else 0

/-- Line 476: the placeholder webhook URL that is treated as unset. -/
def placeholderWebhookURL : String :=
  "https://discord.com/api/webhooks/YOUR_WEBHOOK_ID/YOUR_WEBHOOK_TOKEN"

/-- Lines 487-492: the inner loop of the notification filter — scan
`notifyOn` and stop at the first label equal to the result's status. -/
def statusMatches (resultStatus : String) : List String → Bool
  | [] => false
  | status :: rest =>
    if resultStatus == status then true else statusMatches resultStatus rest

/-- Lines 482-496: the notification filter — when `notifyOn` is non-empty,
append exactly those results whose status matches some label; otherwise
take the whole batch. -/
def filterNotifyResults (notifyOn : List String) (results : List CertInfo) :
    List CertInfo :=
  if notifyOn.length > 0 then
    results.foldl
      (fun acc r => if statusMatches r.status notifyOn then acc ++ [r] else acc)
      []
  else results

/-- Outcome of the `http.Post` call in `sendDiscordNotification`: either a
transport-level error, or an HTTP response with some status code. -/
inductive PostOutcome where
  | transportError (msg : String)
  | response (statusCode : Int)
deriving DecidableEq, Repr

/-- Observable outcome of the webhook dispatcher: whether `http.Post` was
reached, and the returned error (`none` = success). -/
structure DispatchResult where
  httpCalled : Bool
  error : Option String
deriving DecidableEq, Repr

/-- Lines 469-588: `sendDiscordNotification`.  The payload construction
(lines 503-566) only builds the JSON body and does not influence the
control flow, so it is not repeated here; the `json.Marshal` outcome and
the `http.Post` outcome are inputs.  A non-204 HTTP response is only
logged (lines 581-585) and the function still returns `nil`. -/
def sendDiscordNotification (config : Config) (results : List CertInfo)
    (marshalError : Option String) (post : PostOutcome) : DispatchResult :=
  if !config.discord.enabled then
    { httpCalled := false, error := none }
  else
    let webhookURL := config.discord.webhookURL
    if webhookURL = "" || webhookURL = placeholderWebhookURL then
      { httpCalled := false, error := none }
    else
      let filteredResults := filterNotifyResults config.discord.notifyOn results
      if filteredResults.length = 0 then
        { httpCalled := false, error := none }
      else
        match marshalError with
        | some e =>
          { httpCalled := false, error := some ("JSONのマーシャルに失敗: " ++ e) }
        | none =>
          match post with
          | .transportError msg =>
            { httpCalled := true, error := some ("Discord通知の送信に失敗: " ++ msg) }
          | .response _ =>
            { httpCalled := true, error := none }

/-- Lines 310-338: the fixed HTML document head, title, checked-at line
and table header produced by `generateHTMLReport` (`%s` replaced by the
formatted check time, `%%` by `%`). -/
def htmlHeader (checkTime : String) : String :=
  "<html>\n<head>\n    <meta charset=\"UTF-8\">\n    <style>\n        body \x7b font-family: Arial, sans-serif; margin: 20px; \x7d\n        h1 \x7b color: #333; \x7d\n        table \x7b border-collapse: collapse; width: 100%; margin-top: 20px; \x7d\n        th, td \x7b border: 1px solid #ddd; padding: 12px; text-align: left; \x7d\n        th \x7b background-color: #4CAF50; color: white; \x7d\n        tr:nth-child(even) \x7b background-color: #f2f2f2; \x7d\n        .ok \x7b color: green; font-weight: bold; \x7d\n        .warning \x7b color: orange; font-weight: bold; \x7d\n        .critical \x7b color: red; font-weight: bold; \x7d\n        .error \x7b color: darkred; font-weight: bold; \x7d\n    </style>\n</head>\n<body>\n    <h1>SSL証明書有効期限チェック結果</h1>\n    <p>チェック日時: " ++ checkTime ++ "</p>\n    <table>\n        <tr>\n            <th>サイト名</th>\n            <th>URL</th>\n            <th>発行者</th>\n            <th>有効期限</th>\n            <th>残り日数</th>\n            <th>ステータス</th>\n        </tr>\n"

/-- `strings.ToLower` of a status label (characterwise lowercasing; the
status labels are ASCII). -/
def toLowerString (s : String) : String :=
  String.mk (s.data.map Char.toLower)

/-- Lines 340-364: one table row.  `fmtDate` stands for
`cert.NotAfter.In(JST).Format("2006-01-02")`. -/
def htmlRow (fmtDate : Int → String) (cert : CertInfo) : String :=
  let statusClass := toLowerString cert.status
  if cert.status ≠ "ERROR" then
    "        <tr>\n            <td>" ++ cert.siteName ++ "</td>\n            <td>"
      ++ cert.url ++ ":" ++ toString cert.port ++ "</td>\n            <td>"
      ++ cert.issuer ++ "</td>\n            <td>" ++ fmtDate cert.notAfter
      ++ " JST</td>\n            <td>" ++ toString cert.daysRemaining
      ++ "日</td>\n            <td class=\"" ++ statusClass ++ "\">"
      ++ cert.status ++ "</td>\n        </tr>\n"
  else
    "        <tr>\n            <td>" ++ cert.siteName ++ "</td>\n            <td>"
      ++ cert.url ++ ":" ++ toString cert.port
      ++ "</td>\n            <td colspan=\"3\">" ++ cert.errorMessage
      ++ "</td>\n            <td class=\"" ++ statusClass ++ "\">"
      ++ cert.status ++ "</td>\n        </tr>\n"

/-- Lines 306-371: `generateHTMLReport`.  `checkTime` stands for the
formatted `time.Now().In(JST)` value. -/
def generateHTMLReport (checkTime : String) (fmtDate : Int → String)
    (results : List CertInfo) : String :=
  (results.foldl (fun html cert => html ++ htmlRow fmtDate cert)
    (htmlHeader checkTime))
  ++ "    </table>\n</body>\n</html>"

/-! ## Helper lemmas -/

/-- Truncation agrees with flooring on a nonnegative numerator. -/
lemma tdiv_eq_fdiv_of_nonneg {a b : Int} (ha : 0 ≤ a) (hb : 0 ≤ b) :
    Int.tdiv a b = Int.fdiv a b := by
  rw [Int.tdiv_eq_ediv ha hb, Int.fdiv_eq_ediv a hb]

/-- Truncation sends a numerator strictly between `-b` and `0` to `0`. -/
lemma tdiv_eq_zero_of_neg_lt {a b : Int} (hab : -b < a) (ha : a < 0) :
    Int.tdiv a b = 0 := by
  have h1 : a = -(-a) := by omega
  rw [h1, Int.neg_tdiv, Int.tdiv_eq_ediv (by omega) (by omega),
    Int.ediv_eq_zero_of_lt (by omega) (by omega)]
  rfl

/-- The classifier never produces "ERROR". -/
lemma statusOf_ne_error (alert : AlertConfig) (d : Int) :
    statusOf alert d ≠ "ERROR" := by
  unfold statusOf
  split_ifs <;> decide

/-- The classifier produces one of the three success statuses. -/
lemma statusOf_mem (alert : AlertConfig) (d : Int) :
    statusOf alert d = "OK" ∨ statusOf alert d = "WARNING" ∨
      statusOf alert d = "CRITICAL" := by
  unfold statusOf
  split_ifs <;> simp

/-- The issuer string is never empty (the "Unknown" fallback). -/
lemma issuerStringOf_ne_empty (cert : Certificate) :
    issuerStringOf cert ≠ "" := by
  simp only [issuerStringOf]
  split_ifs <;> first | decide | assumption

/-- A string with the dial-failure message prefix is nonempty. -/
lemma dialErrorMessage_ne_empty (msg : String) :
    "証明書の取得に失敗: " ++ msg ≠ "" := by
  intro h
  have hl := congrArg String.length h
  rw [String.length_append] at hl
  have h1 : String.length "証明書の取得に失敗: " = 11 := rfl
  have h2 : String.length "" = 0 := rfl
  omega

/-! ## Claims -/

/-- Concrete config used in counterexamples and witnesses:
thresholds warning 30 / critical 7, Discord disabled. -/
def sampleConfig : Config :=
  { sites := [], alert := { warningDays := 30, criticalDays := 7 },
    discord := { enabled := false, webhookURL := "", notifyOn := [] } }

/-- Concrete probed site. -/
def sampleSite : Site := { url := "example.com", port := 443, name := "Example" }

/-- A certificate whose `notAfter` is 12 hours before the reference
instant `now = 0` (so strictly between 24 hours ago and now). -/
def halfDayExpiredCert : Certificate :=
  { issuerOrganization := ["Test CA"], issuerCommonName := "",
    subjectCommonName := "example.com", notBefore := -1000000000000000,
    notAfter := -43200000000000 }

/-- C1 counterexample: for a certificate that expired 12 hours before
`now`, the stored `daysRemaining` is `0` — the mathematical floor of the
day delta is `-1`, so the stored value is truncated toward zero, not
floored, contradicting the claim. -/
theorem daysRemaining_not_floor_counterexample :
    (checkCertificate sampleConfig sampleSite
        (.connected [halfDayExpiredCert]) 0).daysRemaining = 0 ∧
    Int.fdiv (halfDayExpiredCert.notAfter - 0) nsPerDay = -1 ∧
    (checkCertificate sampleConfig sampleSite
        (.connected [halfDayExpiredCert]) 0).daysRemaining ≠
      Int.fdiv (halfDayExpiredCert.notAfter - 0) nsPerDay := by
  refine ⟨by decide, by decide, by decide⟩

/-- C1 (amended): the stored `daysRemaining` is the truncation toward
zero of `(notAfter − now) / 24h` (Go's `int(...)` conversion); it agrees
with the floor whenever the certificate is not yet expired, and a
`notAfter` strictly between 24 hours ago and `now` yields `0`, not `-1`. -/
theorem checkCertificate_daysRemaining_trunc (config : Config) (site : Site)
    (cert : Certificate) (rest : List Certificate) (now : Int) :
    (checkCertificate config site (.connected (cert :: rest)) now).daysRemaining
        = Int.tdiv (cert.notAfter - now) nsPerDay ∧
    (now ≤ cert.notAfter →
      (checkCertificate config site (.connected (cert :: rest)) now).daysRemaining
        = Int.fdiv (cert.notAfter - now) nsPerDay) ∧
    (now - nsPerDay < cert.notAfter → cert.notAfter < now →
      (checkCertificate config site (.connected (cert :: rest)) now).daysRemaining
        = 0) := by
  refine ⟨rfl, ?_, ?_⟩
  · intro h
    show Int.tdiv (cert.notAfter - now) nsPerDay = _
    exact tdiv_eq_fdiv_of_nonneg (by omega) (by unfold nsPerDay; omega)
  · intro h1 h2
    show Int.tdiv (cert.notAfter - now) nsPerDay = 0
    exact tdiv_eq_zero_of_neg_lt (by unfold nsPerDay at h1 ⊢; omega) (by omega)

/-- A certificate expiring 36 hours after the reference instant `now = 0`. -/
def futureCert : Certificate :=
  { issuerOrganization := ["Test CA"], issuerCommonName := "",
    subjectCommonName := "example.com", notBefore := 0,
    notAfter := 129600000000000 }

/-- Witness for the amended C1 theorem at a concrete input: a certificate
expiring 36 hours after `now = 0` gives `daysRemaining = 1 = floor(1.5)`. -/
theorem checkCertificate_daysRemaining_trunc_witness :
    ((0 : Int) ≤ futureCert.notAfter) ∧
    (checkCertificate sampleConfig sampleSite
        (.connected [futureCert]) 0).daysRemaining
      = Int.fdiv (futureCert.notAfter - 0) nsPerDay :=
  ⟨by decide,
    (checkCertificate_daysRemaining_trunc sampleConfig sampleSite
      futureCert [] 0).2.1 (by decide)⟩

/-- C2: with thresholds `0 ≤ criticalDays ≤ warningDays` (the spec's
threshold domain), the classifier implements the documented rule table:
negative days are CRITICAL, `0 ≤ d ≤ critical` is CRITICAL, `critical <
d ≤ warning` is WARNING, `d > warning` is OK — boundaries fall in the
more severe bucket and negatives are never clamped. -/
theorem statusOf_rule_table (c w d : Int) (hc : 0 ≤ c) (hcw : c ≤ w) :
    (d < 0 → statusOf { warningDays := w, criticalDays := c } d = "CRITICAL") ∧
    (0 ≤ d → d ≤ c → statusOf { warningDays := w, criticalDays := c } d = "CRITICAL") ∧
    (c < d → d ≤ w → statusOf { warningDays := w, criticalDays := c } d = "WARNING") ∧
    (w < d → statusOf { warningDays := w, criticalDays := c } d = "OK") := by
  unfold statusOf
  dsimp only
  refine ⟨?_, ?_, ?_, ?_⟩ <;> intros <;> split_ifs <;> first | rfl | omega

/-- Witness for C2 at thresholds (warning 30, critical 7), `d = 20`. -/
theorem statusOf_rule_table_witness :
    ((0 : Int) ≤ 7) ∧ ((7 : Int) ≤ 30) ∧
    ((7 : Int) < 20 → (20 : Int) ≤ 30 →
      statusOf { warningDays := 30, criticalDays := 7 } 20 = "WARNING") :=
  ⟨by decide, by decide, (statusOf_rule_table 7 30 20 (by decide) (by decide)).2.2.1⟩

/-- C3 counterexample: with `warningDays = criticalDays = 7`,
`daysRemaining = warningDays = 7` classifies as CRITICAL, not WARNING —
so the boundary law `classify(warningDays) = WARNING` does not hold
"regardless of thresholds". -/
theorem statusOf_boundary_counterexample :
    statusOf { warningDays := 7, criticalDays := 7 } 7 ≠ "WARNING" ∧
    statusOf { warningDays := 7, criticalDays := 7 } 7 = "CRITICAL" := by
  refine ⟨by decide, by decide⟩

/-- C3 (amended): `classify(criticalDays) = CRITICAL` and
`classify(-1) = CRITICAL` hold for all thresholds; `classify(warningDays)
= WARNING` holds provided `0 ≤ warningDays` and `criticalDays <
warningDays`. -/
theorem statusOf_boundary (c w : Int) :
    statusOf { warningDays := w, criticalDays := c } c = "CRITICAL" ∧
    statusOf { warningDays := w, criticalDays := c } (-1) = "CRITICAL" ∧
    (0 ≤ w → c < w →
      statusOf { warningDays := w, criticalDays := c } w = "WARNING") := by
  unfold statusOf
  dsimp only
  refine ⟨?_, ?_, ?_⟩
  · split_ifs <;> first | rfl | omega
  · split_ifs <;> first | rfl | omega
  · intro h1 h2
    split_ifs <;> first | rfl | omega

/-- Witness for the amended C3 theorem at thresholds (warning 30,
critical 7). -/
theorem statusOf_boundary_witness :
    statusOf { warningDays := 30, criticalDays := 7 } 7 = "CRITICAL" ∧
    statusOf { warningDays := 30, criticalDays := 7 } (-1) = "CRITICAL" ∧
    statusOf { warningDays := 30, criticalDays := 7 } 30 = "WARNING" :=
  ⟨(statusOf_boundary 7 30).1, (statusOf_boundary 7 30).2.1,
    (statusOf_boundary 7 30).2.2 (by decide) (by decide)⟩

/-- Severity order used by C4: OK (0) < WARNING (1) < CRITICAL (2). -/
def severityRank (status : String) : Nat :=
  if status == "CRITICAL" then 2 else if status == "WARNING" then 1 else 0

set_option linter.unusedVariables false in
/-- C4: with `criticalDays ≤ warningDays`, classification is monotone —
a smaller `daysRemaining` never gets a less severe status (the hypothesis
matches the claim's quantification; the proof does not depend on it). -/
theorem statusOf_monotone (c w d1 d2 : Int) (hcw : c ≤ w) (h : d1 ≤ d2) :
    severityRank (statusOf { warningDays := w, criticalDays := c } d2) ≤
      severityRank (statusOf { warningDays := w, criticalDays := c } d1) := by
  unfold statusOf
  dsimp only
  split_ifs <;> first | decide | (exfalso; omega)

/-- Witness for C4 at thresholds (warning 30, critical 7), `d1 = 5 ≤ 60 = d2`. -/
theorem statusOf_monotone_witness :
    ((7 : Int) ≤ 30) ∧ ((5 : Int) ≤ 60) ∧
    severityRank (statusOf { warningDays := 30, criticalDays := 7 } 60) ≤
      severityRank (statusOf { warningDays := 30, criticalDays := 7 } 5) :=
  ⟨by decide, by decide, statusOf_monotone 7 30 5 60 (by decide) (by decide)⟩

/-- C5: the scan result batch has exactly one entry per configured site,
in input order — entry `i` is the probe result of site `i` — regardless
of the probe outcomes (so also when every probe fails). -/
theorem checkAllSites_batch (config : Config) (probe : Site → ProbeOutcome)
    (now : Int) :
    (checkAllSites config probe now).length = config.sites.length ∧
    ∀ i : Nat, (checkAllSites config probe now)[i]? =
      (config.sites[i]?).map
        (fun site => checkCertificate config site (probe site) now) := by
  refine ⟨by simp [checkAllSites], fun i => ?_⟩
  simp [checkAllSites, List.getElem?_map]

/-- The issue test of `main` as a proposition over one result. -/
lemma hasIssues_iff (results : List CertInfo) :
    hasIssues results = true ↔ ∃ r ∈ results,
      r.status = "WARNING" ∨ r.status = "CRITICAL" ∨ r.status = "ERROR" := by
  unfold hasIssues
  rw [List.any_eq_true]
  constructor
  · rintro ⟨r, hr, hp⟩
    refine ⟨r, hr, ?_⟩
    simp only [Bool.or_eq_true, beq_iff_eq] at hp
    tauto
  · rintro ⟨r, hr, hp⟩
    refine ⟨r, hr, ?_⟩
    simp only [Bool.or_eq_true, beq_iff_eq]
    tauto

/-- C6: for a batch whose statuses are among the four produced labels,
the exit code is `0` exactly when every status is OK (vacuously for the
empty batch) and `1` exactly when some status is WARNING, CRITICAL or
ERROR. -/
theorem exitCode_contract (results : List CertInfo)
    (h : ∀ r ∈ results, r.status = "OK" ∨ r.status = "WARNING" ∨
      r.status = "CRITICAL" ∨ r.status = "ERROR") :
    (exitCode results = 0 ↔ ∀ r ∈ results, r.status = "OK") ∧
    (exitCode results = 1 ↔ ∃ r ∈ results,
      r.status = "WARNING" ∨ r.status = "CRITICAL" ∨ r.status = "ERROR") := by
  by_cases hb : ∃ r ∈ results,
      r.status = "WARNING" ∨ r.status = "CRITICAL" ∨ r.status = "ERROR"
  · have h1 : exitCode results = 1 := by
      unfold exitCode
      rw [if_pos (hasIssues_iff results |>.mpr hb)]
    refine ⟨⟨fun h0 => absurd (h1 ▸ h0) (by decide), fun hall => ?_⟩,
      ⟨fun _ => hb, fun _ => h1⟩⟩
    exfalso
    obtain ⟨r, hr, hp⟩ := hb
    have hOK := hall r hr
    rcases hp with hp | hp | hp <;> rw [hOK] at hp <;> exact absurd hp (by decide)
  · have h0 : exitCode results = 0 := by
      unfold exitCode
      rw [if_neg]
      rw [hasIssues_iff]
      exact hb
    refine ⟨⟨fun _ => ?_, fun _ => h0⟩,
      ⟨fun h1 => absurd (h0 ▸ h1) (by decide), fun hex => absurd hex hb⟩⟩
    intro r hr
    rcases h r hr with hs | hs | hs | hs
    · exact hs
    · exact absurd ⟨r, hr, Or.inl hs⟩ hb
    · exact absurd ⟨r, hr, Or.inr (Or.inl hs)⟩ hb
    · exact absurd ⟨r, hr, Or.inr (Or.inr hs)⟩ hb

/-- A batch with a single OK result. -/
def sampleOKResult : CertInfo :=
  { siteName := "Example", url := "example.com", port := 443,
    issuer := "Test CA", subject := "example.com", notBefore := 0,
    notAfter := 129600000000000, daysRemaining := 1, status := "OK",
    errorMessage := "" }

/-- Witness for C6 on the one-element all-OK batch. -/
theorem exitCode_contract_witness :
    (exitCode [sampleOKResult] = 0 ↔
      ∀ r ∈ [sampleOKResult], r.status = "OK") ∧
    (exitCode [sampleOKResult] = 1 ↔ ∃ r ∈ [sampleOKResult],
      r.status = "WARNING" ∨ r.status = "CRITICAL" ∨ r.status = "ERROR") :=
  exitCode_contract [sampleOKResult] (by decide)

/-- The inner filter loop decides membership of the status in the policy. -/
lemma statusMatches_iff (s : String) (l : List String) :
    statusMatches s l = true ↔ s ∈ l := by
  induction l with
  | nil => simp [statusMatches]
  | cons a t ih =>
    by_cases h : s = a
    · simp [statusMatches, h]
    · have hb : (s == a) = false := by simp [h]
      simp [statusMatches, hb, h, ih]

/-- Bool form of `statusMatches_iff`. -/
lemma statusMatches_eq_decide (s : String) (l : List String) :
    statusMatches s l = decide (s ∈ l) := by
  by_cases h : s ∈ l
  · rw [decide_eq_true h]
    exact (statusMatches_iff s l).mpr h
  · rw [decide_eq_false h]
    rw [← Bool.not_eq_true, statusMatches_iff]
    exact h

/-- The append-accumulator loop of the filter is `List.filter`. -/
lemma foldl_filter_append (p : CertInfo → Bool) (l acc : List CertInfo) :
    l.foldl (fun acc r => if p r then acc ++ [r] else acc) acc =
      acc ++ l.filter p := by
  induction l generalizing acc with
  | nil => simp
  | cons a t ih =>
    simp only [List.foldl_cons, List.filter_cons]
    by_cases h : p a = true
    · rw [if_pos h, if_pos h, ih]
      simp
    · rw [if_neg h, if_neg h, ih]

/-- C7: the webhook dispatcher's filtered set is the whole batch when the
policy is empty, and otherwise exactly the results whose status is in the
policy, in batch order, each at most once (`List.filter`). -/
theorem filterNotifyResults_spec (notifyOn : List String)
    (results : List CertInfo) :
    filterNotifyResults notifyOn results =
      if notifyOn = [] then results
      else results.filter (fun r => decide (r.status ∈ notifyOn)) := by
  unfold filterNotifyResults
  cases notifyOn with
  | nil => simp
  | cons a t =>
    rw [if_pos (by simp), if_neg (by simp)]
    rw [foldl_filter_append]
    rw [List.nil_append]
    congr 1
    funext r
    exact statusMatches_eq_decide r.status (a :: t)

/-- The guard under which `sendDiscordNotification` reaches the
marshal/POST stage: Discord enabled, a real webhook URL, and a non-empty
filtered result set. -/
def dispatchActive (config : Config) (results : List CertInfo) : Prop :=
  config.discord.enabled = true ∧ config.discord.webhookURL ≠ "" ∧
  config.discord.webhookURL ≠ placeholderWebhookURL ∧
  filterNotifyResults config.discord.notifyOn results ≠ []

instance (config : Config) (results : List CertInfo) :
    Decidable (dispatchActive config results) := by
  unfold dispatchActive
  infer_instance

/-- C8: the webhook dispatcher succeeds with no HTTP call when disabled,
when the URL is empty or the placeholder, or when the filtered set is
empty; a marshalling failure errors before any HTTP call; a transport
failure of the POST errors; any HTTP response status at all (204 or not)
yields success. -/
theorem sendDiscordNotification_contract (config : Config)
    (results : List CertInfo) (marshalError : Option String)
    (post : PostOutcome) :
    (¬ dispatchActive config results →
      sendDiscordNotification config results marshalError post =
        { httpCalled := false, error := none }) ∧
    (dispatchActive config results → ∀ e, marshalError = some e →
      sendDiscordNotification config results marshalError post =
        { httpCalled := false,
          error := some ("JSONのマーシャルに失敗: " ++ e) }) ∧
    (dispatchActive config results → marshalError = none →
      ∀ m, post = .transportError m →
      sendDiscordNotification config results marshalError post =
        { httpCalled := true,
          error := some ("Discord通知の送信に失敗: " ++ m) }) ∧
    (dispatchActive config results → marshalError = none →
      ∀ code, post = .response code →
      sendDiscordNotification config results marshalError post =
        { httpCalled := true, error := none }) := by
  have hlen : ∀ h : filterNotifyResults config.discord.notifyOn results ≠ [],
      (filterNotifyResults config.discord.notifyOn results).length ≠ 0 := by
    intro h
    simpa [List.length_eq_zero] using h
  refine ⟨?_, ?_, ?_, ?_⟩
  · intro hna
    by_cases he : config.discord.enabled = true
    · by_cases hu1 : config.discord.webhookURL = ""
      · simp [sendDiscordNotification, he, hu1]
      · by_cases hu2 : config.discord.webhookURL = placeholderWebhookURL
        · simp [sendDiscordNotification, he, hu2]
        · have hf : filterNotifyResults config.discord.notifyOn results = [] := by
            by_contra hf
            exact hna ⟨he, hu1, hu2, hf⟩
          simp [sendDiscordNotification, he, hu1, hu2, hf]
    · have he2 : config.discord.enabled = false := by
        simpa using he
      simp [sendDiscordNotification, he2]
  · rintro ⟨he, hu1, hu2, hf⟩ e hm
    simp [sendDiscordNotification, he, hu1, hu2, hlen hf, hm]
  · rintro ⟨he, hu1, hu2, hf⟩ hm m hp
    simp [sendDiscordNotification, he, hu1, hu2, hlen hf, hm, hp]
  · rintro ⟨he, hu1, hu2, hf⟩ hm code hp
    simp [sendDiscordNotification, he, hu1, hu2, hlen hf, hm, hp]

/-- Witness for C8: with Discord disabled the dispatcher is a no-op
returning success. -/
theorem sendDiscordNotification_contract_witness :
    ¬ dispatchActive sampleConfig [sampleOKResult] ∧
    sendDiscordNotification sampleConfig [sampleOKResult] none
        (.response 404) = { httpCalled := false, error := none } :=
  ⟨by decide,
    (sendDiscordNotification_contract sampleConfig [sampleOKResult] none
      (.response 404)).1 (by decide)⟩

/-- C9: every probe result has one of the four statuses; its error
message is nonempty exactly when the status is ERROR; on ERROR the
certificate fields stay at their zero values, and otherwise they are
exactly the fields read off the obtained leaf certificate (with a
never-empty issuer string). -/
theorem checkCertificate_invariants (config : Config) (site : Site)
    (probe : ProbeOutcome) (now : Int) :
    ((checkCertificate config site probe now).status = "OK" ∨
     (checkCertificate config site probe now).status = "WARNING" ∨
     (checkCertificate config site probe now).status = "CRITICAL" ∨
     (checkCertificate config site probe now).status = "ERROR") ∧
    ((checkCertificate config site probe now).errorMessage ≠ "" ↔
      (checkCertificate config site probe now).status = "ERROR") ∧
    ((checkCertificate config site probe now).status = "ERROR" →
      (checkCertificate config site probe now).issuer = "" ∧
      (checkCertificate config site probe now).subject = "" ∧
      (checkCertificate config site probe now).notBefore = 0 ∧
      (checkCertificate config site probe now).notAfter = 0 ∧
      (checkCertificate config site probe now).daysRemaining = 0) ∧
    ((checkCertificate config site probe now).status ≠ "ERROR" →
      ∃ cert rest, probe = .connected (cert :: rest) ∧
        (checkCertificate config site probe now).issuer = issuerStringOf cert ∧
        (checkCertificate config site probe now).issuer ≠ "" ∧
        (checkCertificate config site probe now).subject =
          cert.subjectCommonName ∧
        (checkCertificate config site probe now).notBefore = cert.notBefore ∧
        (checkCertificate config site probe now).notAfter = cert.notAfter ∧
        (checkCertificate config site probe now).daysRemaining =
          daysRemainingOf now cert.notAfter) := by
  cases probe with
  | dialError msg =>
    exact ⟨Or.inr (Or.inr (Or.inr rfl)),
      ⟨fun _ => rfl, fun _ => dialErrorMessage_ne_empty msg⟩,
      fun _ => ⟨rfl, rfl, rfl, rfl, rfl⟩,
      fun hne => absurd rfl hne⟩
  | connected certs =>
    cases certs with
    | nil =>
      exact ⟨Or.inr (Or.inr (Or.inr rfl)),
        ⟨fun _ => rfl, fun _ => show ("証明書が見つかりません" : String) ≠ "" by decide⟩,
        fun _ => ⟨rfl, rfl, rfl, rfl, rfl⟩,
        fun hne => absurd rfl hne⟩
    | cons cert rest =>
      refine ⟨?_, ⟨fun habs => absurd rfl habs, fun herr =>
          absurd herr (statusOf_ne_error config.alert _)⟩,
        fun herr => absurd herr (statusOf_ne_error config.alert _),
        fun _ => ⟨cert, rest, rfl, rfl, issuerStringOf_ne_empty cert,
          rfl, rfl, rfl, rfl⟩⟩
      rcases statusOf_mem config.alert
          (daysRemainingOf now cert.notAfter) with hs | hs | hs
      · exact Or.inl hs
      · exact Or.inr (Or.inl hs)
      · exact Or.inr (Or.inr (Or.inl hs))

/-- Witness for C9 at a concrete failed probe. -/
theorem checkCertificate_invariants_witness :
    ((checkCertificate sampleConfig sampleSite (.dialError "dial timeout") 0).status = "OK" ∨
     (checkCertificate sampleConfig sampleSite (.dialError "dial timeout") 0).status = "WARNING" ∨
     (checkCertificate sampleConfig sampleSite (.dialError "dial timeout") 0).status = "CRITICAL" ∨
     (checkCertificate sampleConfig sampleSite (.dialError "dial timeout") 0).status = "ERROR") ∧
    ((checkCertificate sampleConfig sampleSite (.dialError "dial timeout") 0).errorMessage ≠ "" ↔
      (checkCertificate sampleConfig sampleSite (.dialError "dial timeout") 0).status = "ERROR") ∧
    ((checkCertificate sampleConfig sampleSite (.dialError "dial timeout") 0).status = "ERROR" →
      (checkCertificate sampleConfig sampleSite (.dialError "dial timeout") 0).issuer = "" ∧
      (checkCertificate sampleConfig sampleSite (.dialError "dial timeout") 0).subject = "" ∧
      (checkCertificate sampleConfig sampleSite (.dialError "dial timeout") 0).notBefore = 0 ∧
      (checkCertificate sampleConfig sampleSite (.dialError "dial timeout") 0).notAfter = 0 ∧
      (checkCertificate sampleConfig sampleSite (.dialError "dial timeout") 0).daysRemaining = 0) ∧
    ((checkCertificate sampleConfig sampleSite (.dialError "dial timeout") 0).status ≠ "ERROR" →
      ∃ cert rest, (ProbeOutcome.dialError "dial timeout") =
          .connected (cert :: rest) ∧
        (checkCertificate sampleConfig sampleSite (.dialError "dial timeout") 0).issuer = issuerStringOf cert ∧
        (checkCertificate sampleConfig sampleSite (.dialError "dial timeout") 0).issuer ≠ "" ∧
        (checkCertificate sampleConfig sampleSite (.dialError "dial timeout") 0).subject = cert.subjectCommonName ∧
        (checkCertificate sampleConfig sampleSite (.dialError "dial timeout") 0).notBefore = cert.notBefore ∧
        (checkCertificate sampleConfig sampleSite (.dialError "dial timeout") 0).notAfter = cert.notAfter ∧
        (checkCertificate sampleConfig sampleSite (.dialError "dial timeout") 0).daysRemaining =
          daysRemainingOf 0 cert.notAfter) :=
  checkCertificate_invariants sampleConfig sampleSite
    (.dialError "dial timeout") 0

/-- An ERROR result whose site name and error message contain HTML
metacharacters. -/
def c10Result : CertInfo :=
  { siteName := "<b>site</b>", url := "bad.example.com", port := 443,
    issuer := "", subject := "", notBefore := 0, notAfter := 0,
    daysRemaining := 0, status := "ERROR",
    errorMessage := "<script>alert(1)</script>" }

/-- The lowercased ERROR status label. -/
lemma toLowerString_ERROR : toLowerString "ERROR" = "error" := by decide

/-- The rendered default port. -/
lemma toString_port443 : toString (443 : Int) = "443" := by decide

/-- C10: the HTML report inserts the error message and the site name into
the document verbatim — the generated document contains the unencoded
`<script>` payload inside the merged error cell and the unencoded site
name inside its cell. -/
theorem generateHTMLReport_no_escaping :
    (∃ a b : String,
      generateHTMLReport "2026-01-01 00:00:00" (fun _ => "") [c10Result] =
        a ++ "<td colspan=\"3\"><script>alert(1)</script></td>" ++ b) ∧
    (∃ a b : String,
      generateHTMLReport "2026-01-01 00:00:00" (fun _ => "") [c10Result] =
        a ++ "<td><b>site</b></td>" ++ b) := by
  constructor
  · refine ⟨htmlHeader "2026-01-01 00:00:00" ++
      "        <tr>\n            <td><b>site</b></td>\n            <td>bad.example.com:443</td>\n            ",
      "\n            <td class=\"error\">ERROR</td>\n        </tr>\n    </table>\n</body>\n</html>", ?_⟩
    simp [generateHTMLReport, htmlHeader, htmlRow, c10Result,
      toLowerString_ERROR, toString_port443]
  · refine ⟨htmlHeader "2026-01-01 00:00:00" ++ "        <tr>\n            ",
      "\n            <td>bad.example.com:443</td>\n            <td colspan=\"3\"><script>alert(1)</script></td>\n            <td class=\"error\">ERROR</td>\n        </tr>\n    </table>\n</body>\n</html>", ?_⟩
    simp [generateHTMLReport, htmlHeader, htmlRow, c10Result,
      toLowerString_ERROR, toString_port443]

end CertChecker
